import Mathlib

/-!
Shallow embedding of the `rds-data-api` Go SQL driver (package `rdsdataapi`,
file `driver.go`).  The driver adapts the stateful `database/sql/driver`
contract onto the stateless AWS RDS Data Service HTTP API.

Remote calls (`BeginTransactionWithContext`, `CommitTransactionWithContext`,
`RollbackTransactionWithContext`, `ExecuteStatementWithContext`,
`BatchExecuteStatementWithContext`) are external round trips; each embedded
operation takes the remote response as an explicit argument (or a function
from the request it builds to a response), so theorems quantify over every
possible remote behaviour.  Go's in-place mutation of `Conn` / `Stmt` /
`Rows` becomes explicit state passing: each operation returns the result
together with the updated record.
-/

namespace RdsDataApi

/-- Opaque stand-in for a Go `float64` payload carried through the wire
format.  The driver never computes with doubles, it only moves them between
slots, so the 64-bit pattern is kept abstract. -/
structure GoFloat64 where
  bits : Nat
  deriving DecidableEq, Repr

/-- `rdsds.Field`: the wire union for one scalar value.  Every slot is a
pointer in the Go SDK (`nil` = absent), embedded as `Option`.  `BlobValue`
is a `[]byte` (its `nil`/non-`nil` distinction is the `Option`). -/
structure Field where
  blobValue : Option (List Nat) := none
  booleanValue : Option Bool := none
  doubleValue : Option GoFloat64 := none
  isNull : Option Bool := none
  longValue : Option Int := none
  stringValue : Option String := none
  deriving DecidableEq, Repr

/-- A decoded `driver.Value` as produced by `decodeField`: one of the Go
dynamic values the driver hands back to `database/sql`.  `null` is the Go
`nil` interface value returned for an explicit-null field. -/
inductive Value where
  | bytes (b : List Nat)
  | boolean (b : Bool)
  | double (d : GoFloat64)
  | null
  | int (i : Int)
  | str (s : String)
  deriving DecidableEq, Repr

/-- The driver's error cases, one constructor per distinct `fmt.Errorf`
site.  The spec's taxonomy names (`ConfigError`, `StateError`, ...) are an
abstraction over these; `isStateError` below groups the ones the spec calls
`StateError`. -/
inductive DriverError where
  /-- "required configuration value 'Database', 'ResourceARN' or 'SecretARN' are missing" -/
  | configMissing
  /-- "connection already closed" -/
  | connClosed
  /-- "a transaction already started" -/
  | txAlreadyStarted
  /-- "no open transaction to commit" -/
  | noOpenTxToCommit
  /-- "no open transaction to rollback" -/
  | noOpenTxToRollback
  /-- "rows already closed" -/
  | rowsClosed
  /-- "already closed" (on `Stmt`) -/
  | stmtAlreadyClosed
  /-- "support named SQL arguments are supported in query" -/
  | unnamedArgument
  /-- "supports string, \x5b\x5dbyte, bool, float64 or int64 for argument '%s', got: %T" -/
  | unsupportedArgType (name : String) (goType : String)
  /-- "failed to being transaction: %w" -/
  | beginFailed (e : String)
  /-- "failed to commit transaction: %w" (from `Commit`) -/
  | commitFailed (e : String)
  /-- "failed to commit transaction: %w" (from `Rollback`; the source reuses the commit message) -/
  | rollbackFailed (e : String)
  /-- "failed to execute statement: %w" -/
  | executeFailed (e : String)
  /-- "failed to execute batch statement: %w" -/
  | batchFailed (e : String)
  /-- "field has no defined value" -/
  | undefinedFieldValue
  /-- "LastInsertId not supported by postgres engine AND demands the exec to return exactly one generated field, got: %d" -/
  | wrongGeneratedFieldCount (n : Nat)
  /-- "generated field is not a non-nil long value" -/
  | generatedFieldNotLong
  /-- "failed to decode field value: %w" -/
  | fieldDecodeFailed (e : DriverError)
  deriving DecidableEq, Repr

/-- The error cases the spec's taxonomy groups under `StateError`
("illegal transaction/closed-resource transition"). -/
def DriverError.isStateError : DriverError → Bool
  | .connClosed | .txAlreadyStarted | .noOpenTxToCommit
  | .noOpenTxToRollback | .rowsClosed | .stmtAlreadyClosed => true
  | _ => false

/-- `decodeField` (driver.go): resolve which slot of the wire union is
populated, in the source's `switch` order: blob, boolean, double, is-null,
long, string; no populated slot is an error. -/
def decodeField (f : Field) : Except DriverError Value :=
  match f.blobValue with
  | some b => .ok (.bytes b)
  | none =>
  match f.booleanValue with
  | some b => .ok (.boolean b)
  | none =>
  match f.doubleValue with
  | some d => .ok (.double d)
  | none =>
  match f.isNull with
  | some _ => .ok .null
  | none =>
  match f.longValue with
  | some i => .ok (.int i)
  | none =>
  match f.stringValue with
  | some s => .ok (.str s)
  | none => .error .undefinedFieldValue

/-- A Go `driver.Value` as it arrives in a `driver.NamedValue`: the dynamic
(interface) value the `toParams` type switch inspects.  The five concrete
constructors are the switch's cases; `null` is the Go `nil` interface value
and `other` any further dynamic type, both of which fall to the switch's
`default`. `other` carries the value's `%T` rendering. -/
inductive GoValue where
  | str (s : String)
  | bytes (b : List Nat)
  | boolean (b : Bool)
  | double (d : GoFloat64)
  | int64 (i : Int)
  | null
  | other (goType : String)
  deriving DecidableEq, Repr

/-- The `%T` rendering of a dynamic value, used by the `toParams` default
branch error message. -/
def GoValue.goTypeName : GoValue → String
  | .str _ => "string"
  | .bytes _ => "\x5b\x5duint8"
  | .boolean _ => "bool"
  | .double _ => "float64"
  | .int64 _ => "int64"
  | .null => "<nil>"
  | .other t => t

/-- The type switch of `toParams`: the wire field built for a supported
value, `none` when the value falls to the `default` branch. -/
def GoValue.encode : GoValue → Option Field
  | .str s => some { stringValue := some s }
  | .bytes b => some { blobValue := some b }
  | .boolean b => some { booleanValue := some b }
  | .double d => some { doubleValue := some d }
  | .int64 i => some { longValue := some i }
  | .null => none
  | .other _ => none

/-- Whether a dynamic value is one of the kinds the type switch accepts. -/
def GoValue.isSupported (v : GoValue) : Bool := v.encode.isSome

/-- `driver.NamedValue` (the `Ordinal` field is never read by the driver). -/
structure NamedValue where
  name : String
  value : GoValue
  deriving DecidableEq, Repr

/-- `rdsds.SqlParameter`: `toParams` always populates both pointer fields,
so they are embedded as plain fields. -/
structure SqlParameter where
  name : String
  value : Field
  deriving DecidableEq, Repr

/-- `toParams` (driver.go): encode the caller's named arguments into wire
parameters, in order, first failure winning; an empty name is rejected
before the value's kind is inspected. -/
def toParams : List NamedValue → Except DriverError (List SqlParameter)
  | [] => .ok []
  | arg :: rest =>
    if arg.name = "" then
      .error .unnamedArgument
    else
      match arg.value.encode with
      | none => .error (.unsupportedArgType arg.name arg.value.goTypeName)
      | some f =>
        match toParams rest with
        | .error e => .error e
        | .ok ps => .ok ({ name := arg.name, value := f } :: ps)

/-- The per-binding encoding `toParams` performs on a valid binding: the
wire parameter with the binding's name and its value's encoded field
(meaningful when `a.value.isSupported`; the `getD` default is never used
there). -/
def encodeNamedValue (a : NamedValue) : SqlParameter :=
  { name := a.name, value := a.value.encode.getD {} }

/-- The three configuration values `Open` reads from the parsed connection
string (`url.Values.Get` returns `""` for a missing key, so a missing key
and an explicitly empty one coincide). -/
structure Config where
  database : String
  resourceARN : String
  secretARN : String
  deriving DecidableEq, Repr

/-- `Conn` (driver.go): configuration, the remote client handle
(`rdsDataService`, `nil` after `Close`, embedded as `hasService`), and the
transaction-handle slot (`transactionID`, `""` = no open transaction). -/
structure Conn where
  databaseName : String
  resourceARN : String
  secretARN : String
  hasService : Bool
  transactionID : String
  deriving DecidableEq, Repr

/-- `Open` (driver.go), from the parsed configuration onward: build the
connection, then reject it when any of the three required values is
empty. -/
def Conn.openConn (cfg : Config) : Except DriverError Conn :=
  let c : Conn :=
    { databaseName := cfg.database
      resourceARN := cfg.resourceARN
      secretARN := cfg.secretARN
      hasService := true
      transactionID := "" }
  if c.resourceARN = "" ∨ c.secretARN = "" ∨ c.databaseName = "" then
    .error .configMissing
  else
    .ok c

/-- `rdsds.BeginTransactionInput` as built by `Conn.BeginTx`. -/
structure BeginTransactionInput where
  database : String
  resourceArn : String
  secretArn : String
  deriving DecidableEq, Repr

/-- `rdsds.BeginTransactionOutput`: `TransactionId` is a `*string` in the
SDK; `aws.StringValue` turns `nil` into `""`. -/
structure BeginTransactionOutput where
  transactionId : Option String
  deriving DecidableEq, Repr

/-- `aws.StringValue`. -/
def stringValue (s : Option String) : String := s.getD ""

/-- `Conn.BeginTx` (driver.go).  The remote response to the begin call is
passed in explicitly; the returned pair is (Go return value, connection
after the call), making the mutation of `c.transactionID` explicit. -/
def Conn.beginTx (c : Conn) (remote : Except String BeginTransactionOutput) :
    Except DriverError Unit × Conn :=
  if ¬ c.hasService then
    (.error .connClosed, c)
  else if c.transactionID ≠ "" then
    (.error .txAlreadyStarted, c)
  else
    match remote with
    | .error e => (.error (.beginFailed e), c)
    | .ok out => (.ok (), { c with transactionID := stringValue out.transactionId })

/-- The request `Conn.BeginTx` sends to the remote engine. -/
def Conn.beginInput (c : Conn) : BeginTransactionInput :=
  { database := c.databaseName, resourceArn := c.resourceARN, secretArn := c.secretARN }

/-- `Conn.Commit` (driver.go): refuse without an open transaction, else
issue the remote commit; the handle is cleared only when the remote call
succeeded. -/
def Conn.commit (c : Conn) (remote : Except String Unit) :
    Except DriverError Unit × Conn :=
  if c.transactionID = "" then
    (.error .noOpenTxToCommit, c)
  else
    match remote with
    | .error e => (.error (.commitFailed e), c)
    | .ok () => (.ok (), { c with transactionID := "" })

/-- `Conn.Rollback` (driver.go): same shape as `Commit` with the rollback
call (and, in the source, a copy-pasted "commit" error message). -/
def Conn.rollback (c : Conn) (remote : Except String Unit) :
    Except DriverError Unit × Conn :=
  if c.transactionID = "" then
    (.error .noOpenTxToRollback, c)
  else
    match remote with
    | .error e => (.error (.rollbackFailed e), c)
    | .ok () => (.ok (), { c with transactionID := "" })

/-- `rdsds.ExecuteStatementInput` as built by `Conn.execute`.
`transactionId` is only set (`SetTransactionId`) when the connection holds
a handle. -/
structure ExecuteStatementInput where
  includeResultMetadata : Bool
  parameters : List SqlParameter
  database : String
  resourceArn : String
  secretArn : String
  sql : String
  transactionId : Option String
  deriving DecidableEq, Repr

/-- `rdsds.ExecuteStatementOutput`: column metadata (each `Name` a
`*string`), fully materialized records, the update count (`*int64`), and
generated fields. -/
structure ExecuteStatementOutput where
  columnMetadata : List (Option String)
  records : List (List Field)
  numberOfRecordsUpdated : Option Int
  generatedFields : List Field
  deriving DecidableEq, Repr

/-- The `ExecuteStatementInput` that `Conn.execute` builds for a query and
already-encoded parameters. -/
def Conn.executeInput (c : Conn) (query : String) (params : List SqlParameter) :
    ExecuteStatementInput :=
  { includeResultMetadata := true
    parameters := params
    database := c.databaseName
    resourceArn := c.resourceARN
    secretArn := c.secretARN
    sql := query
    transactionId := if c.transactionID ≠ "" then some c.transactionID else none }

/-- `Conn.execute` (driver.go): encode the arguments, build the request,
issue the remote call (the remote engine is passed as a function from the
request to its response), wrap a remote failure. -/
def Conn.execute (c : Conn) (query : String) (args : List NamedValue)
    (remote : ExecuteStatementInput → Except String ExecuteStatementOutput) :
    Except DriverError ExecuteStatementOutput :=
  match toParams args with
  | .error e => .error e
  | .ok params =>
    match remote (c.executeInput query params) with
    | .error e => .error (.executeFailed e)
    | .ok out => .ok out

/-- `Rows` (driver.go): iterator over the fully materialized result of one
execute call. -/
structure Rows where
  output : ExecuteStatementOutput
  closed : Bool
  pos : Nat
  deriving DecidableEq, Repr

/-- `Rows.Close` (driver.go). -/
def Rows.closeRows (r : Rows) : Rows := { r with closed := true }

/-- What one `Rows.Next` call reports: a decoded row, the `io.EOF`
end-of-data sentinel, or an error. -/
inductive NextResult where
  | ok (vals : List Value)
  | eof
  | err (e : DriverError)
  deriving DecidableEq, Repr

/-- The field-decoding loop inside `Rows.Next`: decode each field of the
row in order, wrapping the first failure. -/
def decodeRow : List Field → Except DriverError (List Value)
  | [] => .ok []
  | f :: fs =>
    match decodeField f with
    | .error e => .error (.fieldDecodeFailed e)
    | .ok v =>
      match decodeRow fs with
      | .error e => .error e
      | .ok vs => .ok (v :: vs)

/-- `Rows.Next` (driver.go): refuse when closed; return the sentinel at the
end of the records; otherwise read the row at the cursor, advance the
cursor, and only then decode ("read and increment, so decode errors don't
cause infinite iteration").  The pair is (what the call reports, the
iterator afterwards).  (`getD` covers the cursor-past-the-end states the
source can never reach: its equality check against the length would skip
the `io.EOF` branch there and the slice index would panic.) -/
def Rows.next (r : Rows) : NextResult × Rows :=
  if r.closed then
    (.err .rowsClosed, r)
  else if r.pos = r.output.records.length then
    (.eof, r)
  else
    let row := r.output.records.getD r.pos []
    let r' := { r with pos := r.pos + 1 }
    match decodeRow row with
    | .error e => (.err e, r')
    | .ok vs => (.ok vs, r')

/-- `rdsds.UpdateResult`: the per-parameter-set outcome of a batch call. -/
structure UpdateResult where
  generatedFields : List Field
  deriving DecidableEq, Repr

/-- `Stmt` (driver.go): the prepared statement's query text, closed flag,
the queue of encoded parameter sets, and the per-set outcomes (`updates`, a
`nil` slice until `Close` populates it, embedded as the empty list). -/
structure Stmt where
  query : String
  closed : Bool
  sets : List (List SqlParameter)
  updates : List UpdateResult
  deriving DecidableEq, Repr

/-- `Conn.PrepareContext` (driver.go), on an open connection: a fresh
statement bound to the query. -/
def Stmt.prepared (query : String) : Stmt :=
  { query := query, closed := false, sets := [], updates := [] }

/-- `rdsds.BatchExecuteStatementInput` as built by `Stmt.Close`;
`transactionId` is only set when the owning connection holds a handle. -/
structure BatchExecuteStatementInput where
  database : String
  parameterSets : List (List SqlParameter)
  resourceArn : String
  secretArn : String
  sql : String
  transactionId : Option String
  deriving DecidableEq, Repr

/-- One step of a statement's life: the Go return value, the statement
afterwards, and the batch calls the step issued to the remote engine. -/
structure StmtStep (α : Type) where
  result : Except DriverError α
  stmt : Stmt
  calls : List BatchExecuteStatementInput
  deriving Repr

/-- `Stmt.ExecContext` (driver.go): refuse when closed, encode the
arguments, append them to the queue, and hand back a `StmtResult` bound to
the appended set's index (`len(s.sets) - 1` after the append).  No remote
call is made (`calls := []`). -/
def Stmt.execContext (s : Stmt) (args : List NamedValue) : StmtStep Nat :=
  if s.closed then
    ⟨.error .stmtAlreadyClosed, s, []⟩
  else
    match toParams args with
    | .error e => ⟨.error e, s, []⟩
    | .ok params => ⟨.ok s.sets.length, { s with sets := s.sets ++ [params] }, []⟩

/-- The `BatchExecuteStatementInput` that `Stmt.Close` builds:
the whole queue, the owning connection's identifiers, and the transaction
handle only when the connection holds one. -/
def Stmt.closeInput (s : Stmt) (conn : Conn) : BatchExecuteStatementInput :=
  { database := conn.databaseName
    parameterSets := s.sets
    resourceArn := conn.resourceARN
    secretArn := conn.secretARN
    sql := s.query
    transactionId := if conn.transactionID ≠ "" then some conn.transactionID else none }

/-- `Stmt.Close` (driver.go): refuse when already closed, else issue the
single batch call carrying the whole queue (scoped to the owning
connection's current transaction handle when present); on success store
the per-set outcomes and mark the statement closed, on remote failure
leave the statement as it was. -/
def Stmt.stmtClose (s : Stmt) (conn : Conn)
    (remote : BatchExecuteStatementInput → Except String (List UpdateResult)) :
    StmtStep Unit :=
  if s.closed then
    ⟨.error .stmtAlreadyClosed, s, []⟩
  else
    match remote (s.closeInput conn) with
    | .error e => ⟨.error (.batchFailed e), s, [s.closeInput conn]⟩
    | .ok updates =>
      ⟨.ok (), { s with updates := updates, closed := true }, [s.closeInput conn]⟩

/-- A Go call outcome that distinguishes a returned error from a runtime
panic (the embedding needs the distinction for `StmtResult`). -/
inductive GoResult (α : Type) where
  | ok (a : α)
  | err (e : DriverError)
  | panicked (msg : String)
  deriving DecidableEq, Repr

/-- `StmtResult.LastInsertId` (driver.go) for the deferred result at queue
index `i` of statement `s` (`StmtResult{stmt: s, i: i}`): it indexes
`s.updates[i]` with no bounds or readiness guard, so before `Close` has
populated `updates` the index expression panics. -/
def StmtResult.lastInsertId (s : Stmt) (i : Nat) : GoResult Int :=
  match s.updates[i]? with
  | none => .panicked "runtime error: index out of range"
  | some u =>
    if h : u.generatedFields.length = 1 then
      match (u.generatedFields.get ⟨0, by omega⟩).longValue with
      | none => .err .generatedFieldNotLong
      | some v => .ok v
    else
      .err (.wrongGeneratedFieldCount u.generatedFields.length)

/-- `StmtResult.RowsAffected` (driver.go): unconditionally
`panic("not yet implemented")`. -/
def StmtResult.rowsAffected (_s : Stmt) (_i : Nat) : GoResult Int :=
  .panicked "not yet implemented"

/-! ## Helper lemmas -/

theorem toParams_ok_of_valid :
    ∀ args : List NamedValue,
      (∀ a ∈ args, a.name ≠ "" ∧ a.value.isSupported = true) →
      toParams args = .ok (args.map encodeNamedValue)
  | [], _ => rfl
  | a :: rest, h => by
    obtain ⟨hname, hsup⟩ := h a (List.mem_cons_self a rest)
    have hrest := toParams_ok_of_valid rest fun b hb => h b (List.mem_cons_of_mem a hb)
    obtain ⟨f, hf⟩ := Option.isSome_iff_exists.mp hsup
    simp only [toParams, if_neg hname, hf, hrest, List.map_cons, encodeNamedValue,
      Option.getD_some]

theorem valid_of_toParams_ok :
    ∀ (args : List NamedValue) (ps : List SqlParameter), toParams args = .ok ps →
      ∀ a ∈ args, a.name ≠ "" ∧ a.value.isSupported = true := by
  intro args
  induction args with
  | nil => intro ps _ a ha; cases ha
  | cons b rest ih =>
    intro ps hok a ha
    by_cases hname : b.name = ""
    · simp only [toParams, if_pos hname] at hok
      exact Except.noConfusion hok
    · rcases henc : b.value.encode with _ | f
      · simp only [toParams, if_neg hname, henc] at hok
        exact Except.noConfusion hok
      · rcases hrest : toParams rest with e | qs
        · simp only [toParams, if_neg hname, henc, hrest] at hok
          exact Except.noConfusion hok
        · rcases List.mem_cons.mp ha with rfl | hmem
          · exact ⟨hname, by simp [GoValue.isSupported, henc]⟩
          · exact ih qs hrest a hmem

theorem toParams_first_invalid (pre : List NamedValue) (a : NamedValue)
    (post : List NamedValue)
    (hpre : ∀ b ∈ pre, b.name ≠ "" ∧ b.value.isSupported = true) :
    (a.name = "" → toParams (pre ++ a :: post) = .error .unnamedArgument) ∧
    (a.name ≠ "" → a.value.isSupported = false →
      toParams (pre ++ a :: post) =
        .error (.unsupportedArgType a.name a.value.goTypeName)) := by
  induction pre with
  | nil =>
    constructor
    · intro hname
      simp only [List.nil_append, toParams, if_pos hname]
    · intro hname hsup
      have henc : a.value.encode = none := by
        rcases h : a.value.encode with _ | f
        · rfl
        · simp [GoValue.isSupported, h] at hsup
      simp only [List.nil_append, toParams, if_neg hname, henc]
  | cons b rest ih =>
    obtain ⟨hbname, hbsup⟩ := hpre b (List.mem_cons_self b rest)
    obtain ⟨f, hf⟩ := Option.isSome_iff_exists.mp hbsup
    have ihr := ih fun c hc => hpre c (List.mem_cons_of_mem b hc)
    constructor
    · intro hname
      simp only [List.cons_append, toParams, if_neg hbname, hf, List.append_eq,
        ihr.1 hname]
    · intro hname hsup
      simp only [List.cons_append, toParams, if_neg hbname, hf, List.append_eq,
        ihr.2 hname hsup]

/-! ## Claim theorems -/

/-- Claim C8: `Open` succeeds if and only if all three required
configuration values (database name, resource identifier, credential
identifier) are non-empty; whenever any one of them is missing or empty it
fails with the config error and returns no connection. -/
theorem openConn_succeeds_iff (cfg : Config) :
    ((∃ c, Conn.openConn cfg = .ok c) ↔
      cfg.database ≠ "" ∧ cfg.resourceARN ≠ "" ∧ cfg.secretARN ≠ "") ∧
    ((cfg.database = "" ∨ cfg.resourceARN = "" ∨ cfg.secretARN = "") →
      Conn.openConn cfg = .error .configMissing) := by
  unfold Conn.openConn
  by_cases h1 : cfg.resourceARN = "" <;> by_cases h2 : cfg.secretARN = "" <;>
    by_cases h3 : cfg.database = "" <;> simp [h1, h2, h3]

/-- Witness for C8 at a concrete configuration: all three values present
succeeds, and dropping the secret fails with the config error. -/
theorem openConn_succeeds_iff_witness :
    (∃ c, Conn.openConn ⟨"mysql", "arn:r", "arn:s"⟩ = .ok c) ∧
      Conn.openConn ⟨"mysql", "arn:r", ""⟩ = .error .configMissing :=
  ⟨(openConn_succeeds_iff ⟨"mysql", "arn:r", "arn:s"⟩).1.mpr (by decide),
   (openConn_succeeds_iff ⟨"mysql", "arn:r", ""⟩).2 (by decide)⟩

/-- Claim C3 (counterexample): the claim counts `null` among the supported
parameter value kinds, but the `toParams` type switch has no case for a
`nil` value, so a null-valued binding falls to the `default` branch and
fails with the unsupported-kind (`TypeError`) failure instead of
encoding. -/
theorem toParams_null_not_supported :
    toParams [{ name := "a", value := .null }] =
      .error (.unsupportedArgType "a" "<nil>") := rfl

/-- Claim C3 (amended): encoding succeeds iff every binding has a non-empty
name and a value of one of the five supported kinds (text, bytes, boolean,
double, 64-bit integer) — null is not among them; on success the output is
the parallel list of wire parameters in input order; at the first invalid
binding, an empty name fails with the unnamed-argument (`ArgumentError`)
failure, and an unsupported kind (null included) fails with the
unsupported-kind (`TypeError`) failure naming the parameter and the
observed kind. -/
theorem toParams_characterization (args : List NamedValue) :
    ((∃ ps, toParams args = .ok ps) ↔
      ∀ a ∈ args, a.name ≠ "" ∧ a.value.isSupported = true) ∧
    ((∀ a ∈ args, a.name ≠ "" ∧ a.value.isSupported = true) →
      toParams args = .ok (args.map encodeNamedValue)) ∧
    (∀ pre a post, args = pre ++ a :: post →
      (∀ b ∈ pre, b.name ≠ "" ∧ b.value.isSupported = true) →
      (a.name = "" → toParams args = .error .unnamedArgument) ∧
      (a.name ≠ "" → a.value.isSupported = false →
        toParams args = .error (.unsupportedArgType a.name a.value.goTypeName))) := by
  refine ⟨⟨fun ⟨ps, hok⟩ => valid_of_toParams_ok args ps hok,
    fun h => ⟨_, toParams_ok_of_valid args h⟩⟩,
    toParams_ok_of_valid args, ?_⟩
  rintro pre a post rfl hpre
  exact toParams_first_invalid pre a post hpre

/-- Witness for the amended C3 at concrete inputs: a valid two-binding list
encodes to the parallel wire list in order; an unnamed binding after a
valid one fails with the unnamed-argument failure; a boolean-channel value
of unsupported kind fails with the kind-naming failure. -/
theorem toParams_characterization_witness :
    toParams [⟨"a", .str "x"⟩, ⟨"b", .int64 3⟩] =
      .ok [⟨"a", { stringValue := some "x" }⟩, ⟨"b", { longValue := some 3 }⟩] ∧
    toParams [⟨"a", .str "x"⟩, ⟨"", .int64 3⟩] = .error .unnamedArgument ∧
    toParams [⟨"a", .str "x"⟩, ⟨"b", .other "uint32"⟩] =
      .error (.unsupportedArgType "b" "uint32") :=
  ⟨(toParams_characterization [⟨"a", .str "x"⟩, ⟨"b", .int64 3⟩]).2.1 (by decide),
   ((toParams_characterization [⟨"a", .str "x"⟩, ⟨"", .int64 3⟩]).2.2
      [⟨"a", .str "x"⟩] ⟨"", .int64 3⟩ [] rfl (by decide)).1 rfl,
   ((toParams_characterization [⟨"a", .str "x"⟩, ⟨"b", .other "uint32"⟩]).2.2
      [⟨"a", .str "x"⟩] ⟨"b", .other "uint32"⟩ [] rfl (by decide)).2
      (by decide) rfl⟩

/-- Claim C4: `decodeField` resolves the slots of the wire union in the
fixed source order — binary, boolean, double, explicit-null, integer,
text — the first populated slot winning; a field with no populated slot
fails with the undefined-field decode error. -/
theorem decodeField_resolution_order (f : Field) :
    (∀ b, f.blobValue = some b → decodeField f = .ok (.bytes b)) ∧
    (f.blobValue = none → ∀ b, f.booleanValue = some b →
      decodeField f = .ok (.boolean b)) ∧
    (f.blobValue = none → f.booleanValue = none → ∀ d, f.doubleValue = some d →
      decodeField f = .ok (.double d)) ∧
    (f.blobValue = none → f.booleanValue = none → f.doubleValue = none →
      ∀ b, f.isNull = some b → decodeField f = .ok .null) ∧
    (f.blobValue = none → f.booleanValue = none → f.doubleValue = none →
      f.isNull = none → ∀ i, f.longValue = some i → decodeField f = .ok (.int i)) ∧
    (f.blobValue = none → f.booleanValue = none → f.doubleValue = none →
      f.isNull = none → f.longValue = none → ∀ s, f.stringValue = some s →
      decodeField f = .ok (.str s)) ∧
    (f.blobValue = none → f.booleanValue = none → f.doubleValue = none →
      f.isNull = none → f.longValue = none → f.stringValue = none →
      decodeField f = .error .undefinedFieldValue) := by
  obtain ⟨bl, bo, dv, nl, lv, sv⟩ := f
  cases bl <;> cases bo <;> cases dv <;> cases nl <;> cases lv <;> cases sv <;>
    simp [decodeField]

/-- Witness for C4 at concrete fields: a blob slot wins over a populated
boolean slot, and a fully empty field fails with the undefined-field
error. -/
theorem decodeField_resolution_order_witness :
    decodeField { blobValue := some [7], booleanValue := some true } =
      .ok (.bytes [7]) ∧
    decodeField {} = .error .undefinedFieldValue :=
  ⟨(decodeField_resolution_order
      { blobValue := some [7], booleanValue := some true }).1 [7] rfl,
   (decodeField_resolution_order {}).2.2.2.2.2.2 rfl rfl rfl rfl rfl rfl⟩

/-- Claim C10: when the explicit-null slot is populated and the binary,
boolean, and double slots are not, `decodeField` returns the null value
with no error whatever boolean the null slot carries — the pointed-to
boolean is never consulted — and the integer and text slots are
ignored. -/
theorem decodeField_isNull_wins (f : Field) (b : Bool)
    (hbl : f.blobValue = none) (hbo : f.booleanValue = none)
    (hdv : f.doubleValue = none) (hnl : f.isNull = some b) :
    decodeField f = .ok .null := by
  obtain ⟨bl, bo, dv, nl, lv, sv⟩ := f
  cases hbl; cases hbo; cases hdv; cases hnl
  cases lv <;> cases sv <;> rfl

/-- Witness for C10 at a concrete field: `IsNull` pointing at `false`, with
integer and text slots also populated, still decodes as SQL null. -/
theorem decodeField_isNull_wins_witness :
    decodeField { isNull := some false, longValue := some 5,
                  stringValue := some "x" } = .ok .null :=
  decodeField_isNull_wins
    { isNull := some false, longValue := some 5, stringValue := some "x" }
    false rfl rfl rfl rfl

/-- Claim C1: on every connection, `BeginTx` fails with a state error when
a transaction handle is already present (the connection unchanged) and on
success stores the remote handle (the `InTransaction` state, the handle
being non-empty under the collaborator contract); `Commit` and `Rollback`
fail with a state error when no handle is present and on success clear the
handle (the `Idle` state); and whenever the remote call fails the
connection — in particular its transaction handle — is left exactly as it
was before the call. -/
theorem conn_tx_state_machine (c : Conn)
    (rb : Except String BeginTransactionOutput) (rc ru : Except String Unit) :
    (c.transactionID ≠ "" →
      ∃ e, (c.beginTx rb).1 = .error e ∧ e.isStateError = true ∧
        (c.beginTx rb).2 = c) ∧
    (c.hasService = true → c.transactionID = "" → ∀ out, rb = .ok out →
      (c.beginTx rb).1 = .ok () ∧
      (c.beginTx rb).2 = { c with transactionID := stringValue out.transactionId }) ∧
    (∀ e, rb = .error e → (c.beginTx rb).2 = c) ∧
    (c.transactionID = "" → c.commit rc = (.error .noOpenTxToCommit, c)) ∧
    (c.transactionID ≠ "" → rc = .ok () →
      c.commit rc = (.ok (), { c with transactionID := "" })) ∧
    (∀ e, rc = .error e → (c.commit rc).2 = c) ∧
    (c.transactionID = "" → c.rollback ru = (.error .noOpenTxToRollback, c)) ∧
    (c.transactionID ≠ "" → ru = .ok () →
      c.rollback ru = (.ok (), { c with transactionID := "" })) ∧
    (∀ e, ru = .error e → (c.rollback ru).2 = c) := by
  refine ⟨?_, ?_, ?_, ?_, ?_, ?_, ?_, ?_, ?_⟩
  · intro htx
    by_cases hs : c.hasService = true
    · exact ⟨.txAlreadyStarted, by simp [Conn.beginTx, hs, htx], rfl,
        by simp [Conn.beginTx, hs, htx]⟩
    · exact ⟨.connClosed, by simp [Conn.beginTx, hs], rfl,
        by simp [Conn.beginTx, hs]⟩
  · intro hs htx out hout
    subst hout
    exact ⟨by simp [Conn.beginTx, hs, htx], by simp [Conn.beginTx, hs, htx]⟩
  · intro e he
    subst he
    by_cases hs : c.hasService = true <;> by_cases htx : c.transactionID = "" <;>
      simp [Conn.beginTx, hs, htx]
  · intro htx; simp [Conn.commit, htx]
  · intro htx hok; subst hok; simp [Conn.commit, htx]
  · intro e he
    subst he
    by_cases htx : c.transactionID = "" <;> simp [Conn.commit, htx]
  · intro htx; simp [Conn.rollback, htx]
  · intro htx hok; subst hok; simp [Conn.rollback, htx]
  · intro e he
    subst he
    by_cases htx : c.transactionID = "" <;> simp [Conn.rollback, htx]

/-- Witness for C1 at concrete connections: a second begin on a connection
already holding handle "t1" fails with a state error leaving it unchanged;
a successful begin on an idle connection stores the returned handle; a
commit whose remote call fails retains the handle. -/
theorem conn_tx_state_machine_witness :
    (∃ e, ((⟨"db", "r", "s", true, "t1"⟩ : Conn).beginTx
        (.ok ⟨some "t2"⟩)).1 = .error e ∧ e.isStateError = true ∧
      ((⟨"db", "r", "s", true, "t1"⟩ : Conn).beginTx (.ok ⟨some "t2"⟩)).2 =
        ⟨"db", "r", "s", true, "t1"⟩) ∧
    ((⟨"db", "r", "s", true, ""⟩ : Conn).beginTx (.ok ⟨some "t2"⟩)).2 =
      ⟨"db", "r", "s", true, "t2"⟩ ∧
    ((⟨"db", "r", "s", true, "t1"⟩ : Conn).commit (.error "boom")).2 =
      ⟨"db", "r", "s", true, "t1"⟩ :=
  ⟨(conn_tx_state_machine ⟨"db", "r", "s", true, "t1"⟩ (.ok ⟨some "t2"⟩)
      (.ok ()) (.ok ())).1 (by decide),
   ((conn_tx_state_machine ⟨"db", "r", "s", true, ""⟩ (.ok ⟨some "t2"⟩)
      (.ok ()) (.ok ())).2.1 rfl rfl ⟨some "t2"⟩ rfl).2,
   (conn_tx_state_machine ⟨"db", "r", "s", true, "t1"⟩ (.ok ⟨some "t2"⟩)
      (.error "boom") (.ok ())).2.2.2.2.2.1 "boom" rfl⟩

/-- Claim C7: the execute request always carries the connection's database
name, resource identifier, and credential identifier; it carries the
transaction handle exactly when the connection holds one; and when the
remote call fails, `execute` returns the wrapped remote error and no
outcome. -/
theorem execute_request_shape (c : Conn) (query : String)
    (params : List SqlParameter) (args : List NamedValue)
    (remote : ExecuteStatementInput → Except String ExecuteStatementOutput) :
    ((c.executeInput query params).database = c.databaseName ∧
     (c.executeInput query params).resourceArn = c.resourceARN ∧
     (c.executeInput query params).secretArn = c.secretARN ∧
     (c.executeInput query params).sql = query ∧
     (c.executeInput query params).parameters = params) ∧
    (∀ h, (c.executeInput query params).transactionId = some h ↔
      c.transactionID ≠ "" ∧ h = c.transactionID) ∧
    ((c.executeInput query params).transactionId = none ↔ c.transactionID = "") ∧
    (∀ ps e, toParams args = .ok ps → remote (c.executeInput query ps) = .error e →
      c.execute query args remote = .error (.executeFailed e)) := by
  refine ⟨⟨rfl, rfl, rfl, rfl, rfl⟩, ?_, ?_, ?_⟩
  · intro h
    by_cases htx : c.transactionID = "" <;>
      simp [Conn.executeInput, htx, eq_comm]
  · by_cases htx : c.transactionID = "" <;> simp [Conn.executeInput, htx]
  · intro ps e hps hrem
    simp [Conn.execute, hps, hrem]

/-- Witness for C7 at a concrete connection: inside transaction "t7" the
request carries the handle, and a failing remote call surfaces as the
wrapped execute error. -/
theorem execute_request_shape_witness :
    ((⟨"db", "r", "s", true, "t7"⟩ : Conn).executeInput "SELECT 1" []).transactionId =
      some "t7" ∧
    (⟨"db", "r", "s", true, "t7"⟩ : Conn).execute "SELECT 1" []
      (fun _ => .error "boom") = .error (.executeFailed "boom") :=
  ⟨((execute_request_shape ⟨"db", "r", "s", true, "t7"⟩ "SELECT 1" [] []
      (fun _ => .error "boom")).2.1 "t7").mpr (by decide),
   (execute_request_shape ⟨"db", "r", "s", true, "t7"⟩ "SELECT 1" [] []
      (fun _ => .error "boom")).2.2.2 [] "boom" rfl rfl⟩

/-- Claim C2: on an open prepared statement, `ExecContext` is purely
local — it issues no batch call, appends the encoded parameter set to the
queue, and returns a deferred result bound to that set's queue position —
and `Close` issues exactly one batch call carrying the whole queue in
order, scoped to the owning connection's current transaction handle when
one is present; after a successful close the per-set outcomes are stored
positionally (each deferred result's accessors index them by its queue
position). -/
theorem stmt_batching (s : Stmt) (args : List NamedValue) (conn : Conn)
    (remote : BatchExecuteStatementInput → Except String (List UpdateResult)) :
    ((s.execContext args).calls = []) ∧
    (s.closed = false → ∀ ps, toParams args = .ok ps →
      (s.execContext args).result = .ok s.sets.length ∧
      (s.execContext args).stmt = { s with sets := s.sets ++ [ps] } ∧
      ((s.execContext args).stmt.sets)[s.sets.length]? = some ps) ∧
    (s.closed = false →
      (s.stmtClose conn remote).calls = [s.closeInput conn] ∧
      (s.closeInput conn).parameterSets = s.sets ∧
      (s.closeInput conn).sql = s.query ∧
      (s.closeInput conn).database = conn.databaseName ∧
      (s.closeInput conn).resourceArn = conn.resourceARN ∧
      (s.closeInput conn).secretArn = conn.secretARN ∧
      (s.closeInput conn).transactionId =
        (if conn.transactionID ≠ "" then some conn.transactionID else none)) ∧
    (s.closed = false → ∀ updates,
      remote (s.closeInput conn) = .ok updates →
      (s.stmtClose conn remote).result = .ok () ∧
      (s.stmtClose conn remote).stmt =
        { s with updates := updates, closed := true }) := by
  refine ⟨?_, ?_, ?_, ?_⟩
  · by_cases hc : s.closed = true
    · simp [Stmt.execContext, hc]
    · rcases hps : toParams args with e | ps <;>
        simp [Stmt.execContext, hc, hps]
  · intro hc ps hps
    refine ⟨by simp [Stmt.execContext, hc, hps], by simp [Stmt.execContext, hc, hps], ?_⟩
    simp only [Stmt.execContext, hc, hps]
    simp [List.getElem?_append_right]
  · intro hc
    refine ⟨?_, rfl, rfl, rfl, rfl, rfl, rfl⟩
    rcases hrem : remote (s.closeInput conn) with e | updates <;>
      simp [Stmt.stmtClose, hc, hrem]
  · intro hc updates hrem
    constructor <;> simp [Stmt.stmtClose, hc, hrem]

/-- Witness for C2 at a concrete statement and connection: one buffered
exec appends its encoded set at position 0 and issues no call, and closing
under open transaction "t9" issues the single batch call carrying it,
scoped to "t9", storing the returned outcome. -/
theorem stmt_batching_witness :
    ((Stmt.prepared "INSERT").execContext [⟨"n", .int64 1⟩]).calls = [] ∧
    ((Stmt.prepared "INSERT").execContext [⟨"n", .int64 1⟩]).result = .ok 0 ∧
    ((Stmt.prepared "INSERT").stmtClose ⟨"db", "r", "s", true, "t9"⟩
        (fun _ => .ok [⟨[]⟩])).calls =
      [{ database := "db", parameterSets := [], resourceArn := "r",
         secretArn := "s", sql := "INSERT", transactionId := some "t9" }] ∧
    ((Stmt.prepared "INSERT").stmtClose ⟨"db", "r", "s", true, "t9"⟩
        (fun _ => .ok [⟨[]⟩])).stmt =
      { query := "INSERT", closed := true, sets := [], updates := [⟨[]⟩] } :=
  ⟨(stmt_batching (Stmt.prepared "INSERT") [⟨"n", .int64 1⟩]
      ⟨"db", "r", "s", true, "t9"⟩ (fun _ => .ok [⟨[]⟩])).1,
   ((stmt_batching (Stmt.prepared "INSERT") [⟨"n", .int64 1⟩]
      ⟨"db", "r", "s", true, "t9"⟩ (fun _ => .ok [⟨[]⟩])).2.1 rfl
      [⟨"n", { longValue := some 1 }⟩] rfl).1,
   ((stmt_batching (Stmt.prepared "INSERT") [⟨"n", .int64 1⟩]
      ⟨"db", "r", "s", true, "t9"⟩ (fun _ => .ok [⟨[]⟩])).2.2.1 rfl).1,
   ((stmt_batching (Stmt.prepared "INSERT") [⟨"n", .int64 1⟩]
      ⟨"db", "r", "s", true, "t9"⟩ (fun _ => .ok [⟨[]⟩])).2.2.2 rfl [⟨[]⟩] rfl).2⟩

/-- Claim C5: with rows remaining and the iterator open, `Next` advances
the cursor past the current row before decoding it, so a decode failure is
reported as an error while the cursor already points at the subsequent
row: the following call decodes that subsequent row (or reports
end-of-data), never re-presenting the row that failed. -/
theorem rows_next_advances_before_decode (r : Rows)
    (hclosed : r.closed = false) (hpos : r.pos < r.output.records.length) :
    ((r.next).2 = { r with pos := r.pos + 1 }) ∧
    (∀ e, decodeRow (r.output.records.getD r.pos []) = .error e →
      (r.next).1 = .err e) ∧
    (∀ vs, r.pos + 1 < r.output.records.length →
      decodeRow (r.output.records.getD (r.pos + 1) []) = .ok vs →
      ((r.next).2.next).1 = .ok vs) ∧
    (r.pos + 1 = r.output.records.length → ((r.next).2.next).1 = .eof) := by
  have hne : r.pos ≠ r.output.records.length := Nat.ne_of_lt hpos
  have hadv : (r.next).2 = { r with pos := r.pos + 1 } := by
    rcases hdec : decodeRow (r.output.records.getD r.pos []) with e | vs <;>
      simp only [List.getD_eq_getElem?_getD] at hdec <;>
      simp [Rows.next, hclosed, hne, hdec]
  refine ⟨hadv, ?_, ?_, ?_⟩
  · intro e hdec
    simp only [List.getD_eq_getElem?_getD] at hdec
    simp [Rows.next, hclosed, hne, hdec]
  · intro vs hlt hdec
    have hne2 : r.pos + 1 ≠ r.output.records.length := Nat.ne_of_lt hlt
    simp only [List.getD_eq_getElem?_getD] at hdec
    rw [hadv]
    simp [Rows.next, hclosed, hne2, hdec]
  · intro heq
    rw [hadv]
    simp [Rows.next, hclosed, heq]

/-- Witness for C5 at a concrete iterator: two rows, the first a field
with no populated slot; the first call errors with the cursor advanced,
and the call after it decodes the second row. -/
theorem rows_next_advances_before_decode_witness :
    ((⟨⟨[some "c"], [[{}], [{ longValue := some 4 }]], none, []⟩, false, 0⟩ :
        Rows).next).2 =
      ⟨⟨[some "c"], [[{}], [{ longValue := some 4 }]], none, []⟩, false, 1⟩ ∧
    ((⟨⟨[some "c"], [[{}], [{ longValue := some 4 }]], none, []⟩, false, 0⟩ :
        Rows).next).1 = .err (.fieldDecodeFailed .undefinedFieldValue) ∧
    (((⟨⟨[some "c"], [[{}], [{ longValue := some 4 }]], none, []⟩, false, 0⟩ :
        Rows).next).2.next).1 = .ok [.int 4] :=
  ⟨(rows_next_advances_before_decode _ rfl (by decide)).1,
   (rows_next_advances_before_decode _ rfl (by decide)).2.1
      (.fieldDecodeFailed .undefinedFieldValue) rfl,
   (rows_next_advances_before_decode _ rfl (by decide)).2.2.1
      [.int 4] (by decide) rfl⟩

/-- Claim C9: an open iterator whose cursor sits at the end of the
materialized records answers every `Next` call with the end-of-data
sentinel — never an error — leaving the iterator unchanged, so repeated
calls keep returning the sentinel. -/
theorem rows_next_eof_idempotent (r : Rows)
    (hclosed : r.closed = false) (hpos : r.pos = r.output.records.length) :
    r.next = (.eof, r) ∧ ((r.next).2).next = (.eof, r) := by
  have h1 : r.next = (.eof, r) := by simp [Rows.next, hclosed, hpos]
  exact ⟨h1, by rw [h1]; exact h1⟩

/-- Witness for C9 at a concrete exhausted iterator (one row, cursor past
it): two successive calls both report end-of-data with the iterator
unchanged. -/
theorem rows_next_eof_idempotent_witness :
    (⟨⟨[], [[{ longValue := some 4 }]], none, []⟩, false, 1⟩ : Rows).next =
      (.eof, ⟨⟨[], [[{ longValue := some 4 }]], none, []⟩, false, 1⟩) ∧
    (((⟨⟨[], [[{ longValue := some 4 }]], none, []⟩, false, 1⟩ : Rows).next).2).next =
      (.eof, ⟨⟨[], [[{ longValue := some 4 }]], none, []⟩, false, 1⟩) :=
  rows_next_eof_idempotent _ rfl (by decide)

/-- Claim C6 (code evaluation at the failing input): on a prepared
statement with one buffered exec that has not been closed, the deferred
result at queue position 0 does not fail with a not-ready error as the
claim states — `LastInsertId` indexes the still-nil `updates` slice and
panics, and `RowsAffected` panics unconditionally. -/
theorem stmtResult_before_close_panics :
    ((Stmt.prepared "INSERT INTO bar.foo VALUES (DEFAULT, :name)").execContext
      [⟨"name", .str "bar"⟩]).result = .ok 0 ∧
    StmtResult.lastInsertId
      ((Stmt.prepared "INSERT INTO bar.foo VALUES (DEFAULT, :name)").execContext
        [⟨"name", .str "bar"⟩]).stmt 0 =
      .panicked "runtime error: index out of range" ∧
    StmtResult.rowsAffected
      ((Stmt.prepared "INSERT INTO bar.foo VALUES (DEFAULT, :name)").execContext
        [⟨"name", .str "bar"⟩]).stmt 0 = .panicked "not yet implemented" :=
  ⟨rfl, rfl, rfl⟩

end RdsDataApi
